import Mathlib

/-!
Shallow embedding of `src/iui/src/controls/layout.rs` from the libui-rs binding.

Raw native widget handles are modelled as `Nat` ids, C strings as byte lists
(`List Nat`), and `c_int` values as `Int`.  The native toolkit is treated as an
opaque widget-tree engine: where a claim depends on the evident semantics of a
single native flag (a set-then-get register) or of `uiTabDelete` (remove the
page at an index), that flag or list is made explicit state; everywhere else
the native side is an abstract state threaded through the wrapper calls.
Fallible paths (the `CString::new(...).unwrap()` calls and the `assert!` in the
box `append` helper) are modelled with `Option`, `none` standing for a panic.
-/

/-- The `LayoutStrategy` enum from layout.rs: how a box sizes a child. -/
inductive LayoutStrategy where
  | Compact
  | Stretchy
deriving DecidableEq, Repr

/-- The `stretchy` boolean computed inside the free function `append` in
layout.rs: `Compact => false, Stretchy => true`. -/
def stretchyBool : LayoutStrategy → Bool
  | LayoutStrategy.Compact => false
  | LayoutStrategy.Stretchy => true

/-- Rust `b as c_int` for a `bool` value: `true` becomes 1, `false` becomes 0. -/
def boolToCInt (b : Bool) : Int := if b then 1 else 0

/-- The native padded flag of a `uiBox`, modelled as the stored `c_int`. -/
structure BoxNative where
  paddedFlag : Int
deriving DecidableEq, Repr

/-- Native `uiBoxSetPadded`: store the given `c_int` in the box's flag. -/
def uiBoxSetPadded (b : BoxNative) (v : Int) : BoxNative := { b with paddedFlag := v }

/-- Native `uiBoxPadded`: read back the stored `c_int`. -/
def uiBoxPadded (b : BoxNative) : Int := b.paddedFlag

/-- The free function `padded` in layout.rs (used by both `VerticalBox` and
`HorizontalBox`): `uiBoxPadded(b) != 0`. -/
def padded (b : BoxNative) : Bool := uiBoxPadded b != 0

/-- The free function `set_padded` in layout.rs: passes `padded as c_int`
(1 for true, 0 for false) to `uiBoxSetPadded`. -/
def set_padded (b : BoxNative) (p : Bool) : BoxNative :=
  uiBoxSetPadded b (boolToCInt p)

/-- The wrapper `LayoutGrid::padded` from layout.rs, as a function of the
`c_int` returned by the native query `uiGridPadded`: the source reads
`if uiGridPadded(grid) == 0 { true } else { false }`. -/
def LayoutGrid.padded (uiGridPadded_ret : Int) : Bool :=
  if uiGridPadded_ret == 0 then true else false

/-- The `c_int` that `LayoutGrid::set_padded` passes to `uiGridSetPadded`:
`let v = if padded { 1 } else { 0 }`. -/
def LayoutGrid.set_padded_v (p : Bool) : Int := if p then 1 else 0

/-- The `GridExpand` enum from layout.rs. -/
inductive GridExpand where
  | Neither
  | Horizontal
  | Vertical
  | Both
deriving DecidableEq, Repr

/-- The `(hexpand, vexpand)` pair computed in `LayoutGrid::append` and
`LayoutGrid::insert_at` from a `GridExpand` value. -/
def gridExpandPair : GridExpand → Int × Int
  | GridExpand.Neither => (0, 0)
  | GridExpand.Horizontal => (1, 0)
  | GridExpand.Vertical => (0, 1)
  | GridExpand.Both => (1, 1)

/-- The `GridAlignment` enum from layout.rs. -/
inductive GridAlignment where
  | Fill
  | Start
  | Center
  | End
deriving DecidableEq, Repr

/-- The `uiAlign` enum of the `ui_sys` crate (declared outside src, mirrored
from its use sites in layout.rs). -/
inductive uiAlign where
  | uiAlignFill
  | uiAlignStart
  | uiAlignCenter
  | uiAlignEnd
deriving DecidableEq, Repr

/-- `GridAlignment::into_ui_align` from layout.rs. -/
def GridAlignment.into_ui_align : GridAlignment → uiAlign
  | GridAlignment.Fill => uiAlign.uiAlignFill
  | GridAlignment.Start => uiAlign.uiAlignStart
  | GridAlignment.Center => uiAlign.uiAlignCenter
  | GridAlignment.End => uiAlign.uiAlignEnd

/-- The `GridInsertionStrategy` enum from layout.rs. -/
inductive GridInsertionStrategy where
  | Leading
  | Top
  | Trailing
  | Bottom
deriving DecidableEq, Repr

/-- The `uiAt` enum of the `ui_sys` crate (declared outside src, mirrored from
its use sites in layout.rs). -/
inductive uiAt where
  | uiAtLeading
  | uiAtTop
  | uiAtTrailing
  | uiAtBottom
deriving DecidableEq, Repr

/-- `GridInsertionStrategy::into_ui_at` from layout.rs. -/
def GridInsertionStrategy.into_ui_at : GridInsertionStrategy → uiAt
  | GridInsertionStrategy.Leading => uiAt.uiAtLeading
  | GridInsertionStrategy.Top => uiAt.uiAtTop
  | GridInsertionStrategy.Trailing => uiAt.uiAtTrailing
  | GridInsertionStrategy.Bottom => uiAt.uiAtBottom

/-- `CString::new(bytes)`: fails (returns `none`, i.e. the `.unwrap()` in
layout.rs panics) exactly when the byte string contains an interior NUL
byte; otherwise yields the marshalled bytes. -/
def cstring_new (bytes : List Nat) : Option (List Nat) :=
  if bytes.contains 0 then none else some bytes

/-- The `UIError` variant produced by `TabGroup::delete` (the error type lives
in error.rs outside src; the variant and its two fields are taken from the
construction site in layout.rs). -/
inductive UIError where
  | TabGroupIndexOutOfBounds (index : Nat) (n : Nat)
deriving DecidableEq, Repr

/-- One page of a native `uiTab`: the marshalled tab name and the child
control's handle. -/
structure TabPage where
  name : List Nat
  control : Nat
deriving DecidableEq, Repr

/-- A native `uiTab`, modelled as its ordered list of pages
(`uiTabNumPages` is its length, `uiTabDelete i` removes the page at `i`). -/
structure TabGroup where
  pages : List TabPage
deriving DecidableEq, Repr

/-- The native calls a `TabGroup` wrapper method can issue, for tracking
which calls `TabGroup::delete` performs. -/
inductive TabNativeCall where
  | numPages
  | deletePage (i : Nat)
deriving DecidableEq, Repr

/-- `TabGroup::delete` from layout.rs: read `n = uiTabNumPages`, and if
`index < n` call `uiTabDelete` and return `Ok(n)`, else return the typed
out-of-bounds error without any further native call.  The result records the
new tab state, the native calls issued, and the returned `Result`. -/
def TabGroup.delete (t : TabGroup) (index : Nat) :
    TabGroup × List TabNativeCall × Except UIError Nat :=
  let n := t.pages.length
  if index < n then
    (⟨t.pages.eraseIdx index⟩, [TabNativeCall.numPages, TabNativeCall.deletePage index],
      Except.ok n)
  else
    (t, [TabNativeCall.numPages], Except.error (UIError.TabGroupIndexOutOfBounds index n))

/-- `TabGroup::append` from layout.rs: marshal the name (panicking on an
interior NUL), append a page via `uiTabAppend`, and return `uiTabNumPages`
after the append. -/
def TabGroup.append (t : TabGroup) (name : List Nat) (control : Nat) :
    Option (TabGroup × Nat) :=
  match cstring_new name with
  | none => none
  | some nm =>
      let t2 : TabGroup := ⟨t.pages ++ [⟨nm, control⟩]⟩
      some (t2, t2.pages.length)

/-- `TabGroup::insert_at` from layout.rs: marshal the name (panicking on an
interior NUL), insert a page before the given index via `uiTabInsertAt`, and
return `uiTabNumPages` after the insert. -/
def TabGroup.insert_at (t : TabGroup) (name : List Nat) (before : Nat) (control : Nat) :
    Option (TabGroup × Nat) :=
  match cstring_new name with
  | none => none
  | some nm =>
      let t2 : TabGroup := ⟨t.pages.insertIdx before ⟨nm, control⟩⟩
      some (t2, t2.pages.length)

/-- A native `uiGroup`: its title bytes and its margined `c_int` flag. -/
structure GroupNative where
  title : List Nat
  margined : Int
deriving DecidableEq, Repr

/-- Native `uiNewGroup`: creates a group with the given marshalled title; the
toolkit's initial margined flag is left abstract as `initMargined`. -/
def uiNewGroup (initMargined : Int) (title : List Nat) : GroupNative :=
  ⟨title, initMargined⟩

/-- Native `uiGroupSetMargined`: store the `c_int`. -/
def uiGroupSetMargined (g : GroupNative) (v : Int) : GroupNative :=
  { g with margined := v }

/-- Native `uiGroupMargined`: read the stored `c_int`. -/
def uiGroupMargined (g : GroupNative) : Int := g.margined

/-- `Group::set_margined` from layout.rs: pass `margined as c_int`. -/
def Group.set_margined (g : GroupNative) (m : Bool) : GroupNative :=
  uiGroupSetMargined g (boolToCInt m)

/-- `Group::margined` from layout.rs: `uiGroupMargined(g) != 0`. -/
def Group.margined (g : GroupNative) : Bool := uiGroupMargined g != 0

/-- `Group::new` from layout.rs: marshal the title (panicking on an interior
NUL), create the native group, then call `set_margined(true)` before
returning. -/
def Group.new (initMargined : Int) (title : List Nat) : Option GroupNative :=
  match cstring_new title with
  | none => none
  | some tt => some (Group.set_margined (uiNewGroup initMargined tt) true)

/-- `Group::set_title` from layout.rs: marshal the title (panicking on an
interior NUL) and store it via `uiGroupSetTitle`. -/
def Group.set_title (g : GroupNative) (title : List Nat) : Option GroupNative :=
  match cstring_new title with
  | none => none
  | some tt => some { g with title := tt }

/-- The parent edges of the native widget tree that box appends create:
a list of `(child, parent)` handle pairs, newest first. -/
abbrev Forest := List (Nat × Nat)

/-- `UI::parent_of` (defined outside src, queried by the `assert!` in the free
`append` helper of layout.rs): the parent handle currently recorded for a
child control, if any. -/
def parent_of (f : Forest) (c : Nat) : Option Nat :=
  (f.find? (fun e => e.1 == c)).map (fun e => e.2)

/-- One successful box-append step, as performed by the free `append` helper
of layout.rs (reached from `add`, `add_stretchy` and `append` on both
`VerticalBox` and `HorizontalBox`): it requires, via `assert!`, that the child
has no parent yet, and then `uiBoxAppend` records the box as the child's
parent. -/
inductive BoxAppendStep : Forest → Forest → Prop where
  | mk (f : Forest) (b c : Nat) (strat : LayoutStrategy)
      (h : parent_of f c = none) : BoxAppendStep f ((c, b) :: f)

/-- Widget-tree states reachable from the empty tree by successful box
appends. -/
inductive ReachableForest : Forest → Prop where
  | nil : ReachableForest []
  | step (f f2 : Forest) : ReachableForest f → BoxAppendStep f f2 → ReachableForest f2

/-- How many parent edges a control has in a forest. -/
def childEdges (f : Forest) (c : Nat) : Nat :=
  (f.filter (fun e => e.1 == c)).length

/-- The native calls issued by the layout.rs wrappers.  Arguments of each
call are recorded; return values come from the native engine.  The
`controlDestroy` constructor is modelled from the spec: destruction of a
foreign object exists in the wider binding (outside src) and the spec's
discipline is that objects are not used after it; no layout.rs operation
emits it. -/
inductive NativeCall where
  | newVerticalBox
  | newHorizontalBox
  | controlParent (c : Nat)
  | boxAppend (b : Nat) (c : Nat) (stretchy : Int)
  | boxPadded (b : Nat)
  | boxSetPadded (b : Nat) (v : Int)
  | newTab
  | tabAppend (t : Nat) (name : List Nat) (c : Nat)
  | tabInsertAt (t : Nat) (name : List Nat) (before : Nat) (c : Nat)
  | tabNumPages (t : Nat)
  | tabDelete (t : Nat) (i : Nat)
  | tabMargined (t : Nat) (page : Nat)
  | tabSetMargined (t : Nat) (page : Nat) (v : Int)
  | newGroup (title : List Nat)
  | groupTitle (g : Nat)
  | groupSetTitle (g : Nat) (title : List Nat)
  | groupSetChild (g : Nat) (c : Nat)
  | groupMargined (g : Nat)
  | groupSetMargined (g : Nat) (v : Int)
  | newHorizontalSeparator
  | newGrid
  | gridPadded (g : Nat)
  | gridSetPadded (g : Nat) (v : Int)
  | gridAppend (g : Nat) (c : Nat) (left height xspan yspan hexpand : Int)
      (halign : uiAlign) (vexpand : Int) (valign : uiAlign)
  | gridInsertAt (g : Nat) (c : Nat) (e : Nat) (pos : uiAt)
      (left height xspan yspan hexpand : Int)
      (halign : uiAlign) (vexpand : Int) (valign : uiAlign)
  | controlDestroy (c : Nat)
deriving DecidableEq, Repr

/-- Whether a native call is the destruction of a foreign object. -/
def NativeCall.isDestroy : NativeCall → Bool
  | NativeCall.controlDestroy _ => true
  | _ => false

/-- The raw foreign handles a native call passes to the toolkit. -/
def NativeCall.handles : NativeCall → List Nat
  | NativeCall.newVerticalBox => []
  | NativeCall.newHorizontalBox => []
  | NativeCall.controlParent c => [c]
  | NativeCall.boxAppend b c _ => [b, c]
  | NativeCall.boxPadded b => [b]
  | NativeCall.boxSetPadded b _ => [b]
  | NativeCall.newTab => []
  | NativeCall.tabAppend t _ c => [t, c]
  | NativeCall.tabInsertAt t _ _ c => [t, c]
  | NativeCall.tabNumPages t => [t]
  | NativeCall.tabDelete t _ => [t]
  | NativeCall.tabMargined t _ => [t]
  | NativeCall.tabSetMargined t _ _ => [t]
  | NativeCall.newGroup _ => []
  | NativeCall.groupTitle g => [g]
  | NativeCall.groupSetTitle g _ => [g]
  | NativeCall.groupSetChild g c => [g, c]
  | NativeCall.groupMargined g => [g]
  | NativeCall.groupSetMargined g _ => [g]
  | NativeCall.newHorizontalSeparator => []
  | NativeCall.newGrid => []
  | NativeCall.gridPadded g => [g]
  | NativeCall.gridSetPadded g _ => [g]
  | NativeCall.gridAppend g c _ _ _ _ _ _ _ _ => [g, c]
  | NativeCall.gridInsertAt g c e _ _ _ _ _ _ _ _ _ => [g, c, e]
  | NativeCall.controlDestroy c => [c]

/-- Whether a native call passes the given handle to the toolkit. -/
def NativeCall.usesHandle (nc : NativeCall) (h : Nat) : Bool :=
  nc.handles.contains h

/-- What the opaque native engine answers to one call: an integer (the
`c_int` or handle return) and, for `uiGroupTitle`, a byte string. -/
structure NativeAns where
  int : Int
  bytes : List Nat
deriving DecidableEq, Repr

/-- A value returned by a layout.rs wrapper operation. -/
inductive RetVal where
  | unit
  | bool (b : Bool)
  | nat (n : Nat)
  | str (s : List Nat)
  | res (r : Except UIError Nat)
deriving Repr

/-- One public wrapper operation of layout.rs, with its arguments (the
receiver's raw handle first where there is one). -/
inductive WrapperOp where
  | verticalBoxNew
  | horizontalBoxNew
  | boxAdd (b : Nat) (child : Nat)
  | boxAddStretchy (b : Nat) (child : Nat)
  | boxAppendStrat (b : Nat) (child : Nat) (strat : LayoutStrategy)
  | boxPaddedQ (b : Nat)
  | boxSetPaddedW (b : Nat) (p : Bool)
  | tabNew
  | tabAppendW (t : Nat) (name : List Nat) (c : Nat)
  | tabInsertAtW (t : Nat) (name : List Nat) (before : Nat) (c : Nat)
  | tabDeleteW (t : Nat) (index : Nat)
  | tabMarginedQ (t : Nat) (page : Nat)
  | tabSetMarginedW (t : Nat) (page : Nat) (m : Bool)
  | groupNewW (title : List Nat)
  | groupTitleQ (g : Nat)
  | groupSetTitleW (g : Nat) (title : List Nat)
  | groupSetChildW (g : Nat) (c : Nat)
  | groupMarginedQ (g : Nat)
  | groupSetMarginedW (g : Nat) (m : Bool)
  | horizontalSeparatorNew
  | spacerNew
  | gridNew
  | gridPaddedQ (g : Nat)
  | gridSetPaddedW (g : Nat) (p : Bool)
  | gridAppendW (g : Nat) (c : Nat) (left height xspan yspan : Int)
      (expand : GridExpand) (halign valign : GridAlignment)
  | gridInsertAtW (g : Nat) (c : Nat) (e : Nat) (pos : GridInsertionStrategy)
      (left height xspan yspan : Int)
      (expand : GridExpand) (halign valign : GridAlignment)
deriving DecidableEq, Repr

/-- Run one wrapper operation against an opaque native engine `nat` over
native state `σ`.  Returns the new native state, the sequence of native calls
issued, and the wrapper's return value (`none` models a panic: a failed
`CString::new(...).unwrap()` or the parent `assert!`).  Each branch mirrors
the body of the corresponding layout.rs function; the wrappers themselves
carry no state of their own. -/
def runOp {σ : Type} (natE : NativeCall → σ → NativeAns × σ) (op : WrapperOp) (s : σ) :
    σ × List NativeCall × Option RetVal :=
  match op with
  | WrapperOp.verticalBoxNew =>
      let r := natE NativeCall.newVerticalBox s
      (r.2, [NativeCall.newVerticalBox], some (RetVal.nat r.1.int.toNat))
  | WrapperOp.horizontalBoxNew =>
      let r := natE NativeCall.newHorizontalBox s
      (r.2, [NativeCall.newHorizontalBox], some (RetVal.nat r.1.int.toNat))
  | WrapperOp.boxAdd b child =>
      let r := natE (NativeCall.controlParent child) s
      if r.1.int == 0 then
        let r2 := natE (NativeCall.boxAppend b child 0) r.2
        (r2.2, [NativeCall.controlParent child, NativeCall.boxAppend b child 0],
          some RetVal.unit)
      else (r.2, [NativeCall.controlParent child], none)
  | WrapperOp.boxAddStretchy b child =>
      let r := natE (NativeCall.controlParent child) s
      if r.1.int == 0 then
        let r2 := natE (NativeCall.boxAppend b child 1) r.2
        (r2.2, [NativeCall.controlParent child, NativeCall.boxAppend b child 1],
          some RetVal.unit)
      else (r.2, [NativeCall.controlParent child], none)
  | WrapperOp.boxAppendStrat b child strat =>
      let st := boolToCInt (stretchyBool strat)
      let r := natE (NativeCall.controlParent child) s
      if r.1.int == 0 then
        let r2 := natE (NativeCall.boxAppend b child st) r.2
        (r2.2, [NativeCall.controlParent child, NativeCall.boxAppend b child st],
          some RetVal.unit)
      else (r.2, [NativeCall.controlParent child], none)
  | WrapperOp.boxPaddedQ b =>
      let r := natE (NativeCall.boxPadded b) s
      (r.2, [NativeCall.boxPadded b], some (RetVal.bool (r.1.int != 0)))
  | WrapperOp.boxSetPaddedW b p =>
      let r := natE (NativeCall.boxSetPadded b (boolToCInt p)) s
      (r.2, [NativeCall.boxSetPadded b (boolToCInt p)], some RetVal.unit)
  | WrapperOp.tabNew =>
      let r := natE NativeCall.newTab s
      (r.2, [NativeCall.newTab], some (RetVal.nat r.1.int.toNat))
  | WrapperOp.tabAppendW t name c =>
      match cstring_new name with
      | none => (s, [], none)
      | some nm =>
          let r := natE (NativeCall.tabAppend t nm c) s
          let r2 := natE (NativeCall.tabNumPages t) r.2
          (r2.2, [NativeCall.tabAppend t nm c, NativeCall.tabNumPages t],
            some (RetVal.nat r2.1.int.toNat))
  | WrapperOp.tabInsertAtW t name before c =>
      match cstring_new name with
      | none => (s, [], none)
      | some nm =>
          let r := natE (NativeCall.tabInsertAt t nm before c) s
          let r2 := natE (NativeCall.tabNumPages t) r.2
          (r2.2, [NativeCall.tabInsertAt t nm before c, NativeCall.tabNumPages t],
            some (RetVal.nat r2.1.int.toNat))
  | WrapperOp.tabDeleteW t index =>
      let r := natE (NativeCall.tabNumPages t) s
      let n := r.1.int.toNat
      if index < n then
        let r2 := natE (NativeCall.tabDelete t index) r.2
        (r2.2, [NativeCall.tabNumPages t, NativeCall.tabDelete t index],
          some (RetVal.res (Except.ok n)))
      else
        (r.2, [NativeCall.tabNumPages t],
          some (RetVal.res (Except.error (UIError.TabGroupIndexOutOfBounds index n))))
  | WrapperOp.tabMarginedQ t page =>
      let r := natE (NativeCall.tabMargined t page) s
      (r.2, [NativeCall.tabMargined t page], some (RetVal.bool (r.1.int != 0)))
  | WrapperOp.tabSetMarginedW t page m =>
      let r := natE (NativeCall.tabSetMargined t page (boolToCInt m)) s
      (r.2, [NativeCall.tabSetMargined t page (boolToCInt m)], some RetVal.unit)
  | WrapperOp.groupNewW title =>
      match cstring_new title with
      | none => (s, [], none)
      | some tt =>
          let r := natE (NativeCall.newGroup tt) s
          let g := r.1.int.toNat
          let r2 := natE (NativeCall.groupSetMargined g 1) r.2
          (r2.2, [NativeCall.newGroup tt, NativeCall.groupSetMargined g 1],
            some (RetVal.nat g))
  | WrapperOp.groupTitleQ g =>
      let r := natE (NativeCall.groupTitle g) s
      (r.2, [NativeCall.groupTitle g], some (RetVal.str r.1.bytes))
  | WrapperOp.groupSetTitleW g title =>
      match cstring_new title with
      | none => (s, [], none)
      | some tt =>
          let r := natE (NativeCall.groupSetTitle g tt) s
          (r.2, [NativeCall.groupSetTitle g tt], some RetVal.unit)
  | WrapperOp.groupSetChildW g c =>
      let r := natE (NativeCall.groupSetChild g c) s
      (r.2, [NativeCall.groupSetChild g c], some RetVal.unit)
  | WrapperOp.groupMarginedQ g =>
      let r := natE (NativeCall.groupMargined g) s
      (r.2, [NativeCall.groupMargined g], some (RetVal.bool (r.1.int != 0)))
  | WrapperOp.groupSetMarginedW g m =>
      let r := natE (NativeCall.groupSetMargined g (boolToCInt m)) s
      (r.2, [NativeCall.groupSetMargined g (boolToCInt m)], some RetVal.unit)
  | WrapperOp.horizontalSeparatorNew =>
      let r := natE NativeCall.newHorizontalSeparator s
      (r.2, [NativeCall.newHorizontalSeparator], some (RetVal.nat r.1.int.toNat))
  | WrapperOp.spacerNew =>
      let r := natE NativeCall.newHorizontalBox s
      (r.2, [NativeCall.newHorizontalBox], some (RetVal.nat r.1.int.toNat))
  | WrapperOp.gridNew =>
      let r := natE NativeCall.newGrid s
      (r.2, [NativeCall.newGrid], some (RetVal.nat r.1.int.toNat))
  | WrapperOp.gridPaddedQ g =>
      let r := natE (NativeCall.gridPadded g) s
      (r.2, [NativeCall.gridPadded g],
        some (RetVal.bool (if r.1.int == 0 then true else false)))
  | WrapperOp.gridSetPaddedW g p =>
      let r := natE (NativeCall.gridSetPadded g (LayoutGrid.set_padded_v p)) s
      (r.2, [NativeCall.gridSetPadded g (LayoutGrid.set_padded_v p)], some RetVal.unit)
  | WrapperOp.gridAppendW g c left height xspan yspan expand halign valign =>
      let p := gridExpandPair expand
      let call := NativeCall.gridAppend g c left height xspan yspan p.1
        halign.into_ui_align p.2 valign.into_ui_align
      let r := natE call s
      (r.2, [call], some RetVal.unit)
  | WrapperOp.gridInsertAtW g c e pos left height xspan yspan expand halign valign =>
      let p := gridExpandPair expand
      let call := NativeCall.gridInsertAt g c e pos.into_ui_at left height xspan yspan p.1
        halign.into_ui_align p.2 valign.into_ui_align
      let r := natE call s
      (r.2, [call], some RetVal.unit)

/-- Run a sequence of wrapper operations, concatenating the native call
traces; a panic stops the run. -/
def runOps {σ : Type} (natE : NativeCall → σ → NativeAns × σ) :
    List WrapperOp → σ → σ × List NativeCall
  | [], s => (s, [])
  | op :: rest, s =>
      match runOp natE op s with
      | (s1, tr, none) => (s1, tr)
      | (s1, tr, some _) =>
          let r := runOps natE rest s1
          (r.1, tr ++ r.2)

/-- A native call trace is free of use-after-destroy: no call passes a handle
that an earlier `controlDestroy` in the trace destroyed. -/
def useAfterDestroyFree (tr : List NativeCall) : Prop :=
  ∀ i j hn c, i < j → tr.get? i = some (NativeCall.controlDestroy hn) →
    tr.get? j = some c → c.usesHandle hn = false

theorem childEdges_eq_zero_of_parent_none (f : Forest) (c : Nat)
    (h : parent_of f c = none) : childEdges f c = 0 := by
  simp only [parent_of, Option.map_eq_none'] at h
  rw [List.find?_eq_none] at h
  simp only [childEdges, List.length_eq_zero, List.filter_eq_nil_iff]
  intro a ha
  exact h a ha

theorem childEdges_cons (ch b c : Nat) (f : Forest) :
    childEdges ((ch, b) :: f) c
      = (if ch = c then childEdges f c + 1 else childEdges f c) := by
  by_cases h : ch = c <;> simp [childEdges, List.filter_cons, h]

theorem runOp_no_destroy {σ : Type} (natE : NativeCall → σ → NativeAns × σ)
    (op : WrapperOp) (s : σ) :
    ∀ c ∈ (runOp natE op s).2.1, c.isDestroy = false := by
  intro c hc
  cases op <;> simp only [runOp] at hc <;> (try split at hc) <;> simp at hc <;>
    (try rcases hc with rfl | rfl | rfl) <;> rfl

theorem runOps_no_destroy {σ : Type} (natE : NativeCall → σ → NativeAns × σ)
    (ops : List WrapperOp) (s : σ) :
    ∀ c ∈ (runOps natE ops s).2, c.isDestroy = false := by
  induction ops generalizing s with
  | nil => intro c hc; simp [runOps] at hc
  | cons op rest ih =>
      intro c hc
      rcases hE : runOp natE op s with ⟨s1, tr, ret⟩
      have htr : ∀ x ∈ tr, x.isDestroy = false := by
        intro x hx
        have hall := runOp_no_destroy natE op s x
        rw [hE] at hall
        exact hall hx
      simp only [runOps] at hc
      rw [hE] at hc
      cases ret with
      | none => simp at hc; exact htr c hc
      | some rv =>
          simp at hc
          rcases hc with hc | hc
          · exact htr c hc
          · exact ih s1 c hc

/-- C1: the claim states that `LayoutGrid::padded` returns true if and only if
the native `uiGridPadded` returns a nonzero value.  Evaluating the code at the
failing input: when `uiGridPadded` returns 1 (nonzero), the wrapper returns
`false`, and when it returns 0 it returns `true` — the getter is inverted,
contradicting its own doc comment and the `!= 0` convention of every sibling
getter in the file.  The setter half of the claim does hold: `set_padded`
passes 1 for true and 0 for false. -/
theorem c1_grid_padded_inverted :
    LayoutGrid.padded 1 = false ∧ LayoutGrid.padded 0 = true
  ∧ LayoutGrid.set_padded_v true = 1 ∧ LayoutGrid.set_padded_v false = 0 :=
  ⟨rfl, rfl, rfl, rfl⟩

/-- C2: `TabGroup::delete index` returns the typed error
`TabGroupIndexOutOfBounds` carrying `index` and the page count `n` exactly
when `index ≥ n`; in that case it issues no `uiTabDelete` call (only the
`uiTabNumPages` query) and leaves the pages unchanged; when `index < n` it
deletes the page at `index` and returns `Ok`. -/
theorem c2_tab_delete_error_iff_oob (t : TabGroup) (index : Nat) :
    ((TabGroup.delete t index).2.2
        = Except.error (UIError.TabGroupIndexOutOfBounds index t.pages.length)
      ↔ t.pages.length ≤ index)
  ∧ (TabGroup.delete t index).1
      = (if index < t.pages.length then ⟨t.pages.eraseIdx index⟩ else t)
  ∧ (TabGroup.delete t index).2.1
      = (if index < t.pages.length
          then [TabNativeCall.numPages, TabNativeCall.deletePage index]
          else [TabNativeCall.numPages])
  ∧ (TabGroup.delete t index).2.2
      = (if index < t.pages.length
          then Except.ok t.pages.length
          else Except.error (UIError.TabGroupIndexOutOfBounds index t.pages.length)) := by
  by_cases h : index < t.pages.length <;> simp [TabGroup.delete, h] <;> omega

/-- C2 witness: at a one-page tab group, deleting index 1 is out of bounds. -/
theorem c2_tab_delete_error_iff_oob_witness :
    ((TabGroup.delete ⟨[⟨[65], 4⟩]⟩ 1).2.2
        = Except.error (UIError.TabGroupIndexOutOfBounds 1 1)
      ↔ (1 : Nat) ≤ 1)
  ∧ (TabGroup.delete ⟨[⟨[65], 4⟩]⟩ 1).1
      = (if 1 < (1 : Nat) then ⟨[⟨[65], 4⟩].eraseIdx 1⟩ else ⟨[⟨[65], 4⟩]⟩)
  ∧ (TabGroup.delete ⟨[⟨[65], 4⟩]⟩ 1).2.1
      = (if 1 < (1 : Nat)
          then [TabNativeCall.numPages, TabNativeCall.deletePage 1]
          else [TabNativeCall.numPages])
  ∧ (TabGroup.delete ⟨[⟨[65], 4⟩]⟩ 1).2.2
      = (if 1 < (1 : Nat)
          then Except.ok 1
          else Except.error (UIError.TabGroupIndexOutOfBounds 1 1)) :=
  c2_tab_delete_error_iff_oob ⟨[⟨[65], 4⟩]⟩ 1

/-- C3 counterexample: the claim says the `CString` marshalling succeeds for
every input string, but a string containing an interior NUL byte makes
`CString::new` fail and the `.unwrap()` panic, in `Group::new` and in
`TabGroup::append` alike. -/
theorem c3_cex_interior_nul :
    Group.new 0 [0] = none ∧ TabGroup.append ⟨[]⟩ [0] 7 = none :=
  ⟨rfl, rfl⟩

/-- C3 (amended): for every input string free of interior NUL bytes, the
`CString` marshalling in `TabGroup::append`, `TabGroup::insert_at`,
`Group::new` and `Group::set_title` succeeds — the internal unwrap does not
panic. -/
theorem c3_marshalling_total (t : TabGroup) (g : GroupNative)
    (name title : List Nat) (before control : Nat) (initMargined : Int)
    (hn : (0 : Nat) ∉ name) (ht : (0 : Nat) ∉ title) :
    (TabGroup.append t name control).isSome = true
  ∧ (TabGroup.insert_at t name before control).isSome = true
  ∧ (Group.new initMargined title).isSome = true
  ∧ (Group.set_title g title).isSome = true := by
  simp [TabGroup.append, TabGroup.insert_at, Group.new, Group.set_title,
    cstring_new, hn, ht]

/-- C3 witness: concrete NUL-free strings marshal successfully. -/
theorem c3_marshalling_total_witness :
    (TabGroup.append ⟨[]⟩ [72] 1).isSome = true
  ∧ (TabGroup.insert_at ⟨[]⟩ [72] 0 1).isSome = true
  ∧ (Group.new 0 [73]).isSome = true
  ∧ (Group.set_title ⟨[], 0⟩ [73]).isSome = true :=
  c3_marshalling_total ⟨[]⟩ ⟨[], 0⟩ [72] [73] 0 1 0 (by decide) (by decide)

/-- C4: in every widget-tree state reachable from the empty tree by the box
append operations (`add`, `add_stretchy`, `append` — all funnelled through the
free `append` helper whose `assert!` requires the child to have no parent),
every control has at most one parent edge. -/
theorem c4_at_most_one_parent (f : Forest) (h : ReachableForest f) (c : Nat) :
    childEdges f c ≤ 1 := by
  induction h with
  | nil => simp [childEdges]
  | step f f2 hre hstep ih =>
      cases hstep with
      | mk b ch strat hnone =>
          rw [childEdges_cons]
          by_cases hc : ch = c
          · subst hc
            rw [if_pos rfl, childEdges_eq_zero_of_parent_none f ch hnone]
          · rw [if_neg hc]
            exact ih

/-- C4 witness: the forest reached by one append of child 3 into box 1 from
the empty tree gives control 3 at most one parent. -/
theorem c4_at_most_one_parent_witness : childEdges [(3, 1)] 3 ≤ 1 :=
  c4_at_most_one_parent [(3, 1)]
    (ReachableForest.step [] [(3, 1)] ReachableForest.nil
      (BoxAppendStep.mk [] 1 3 LayoutStrategy.Compact rfl)) 3

/-- C5: for every box and boolean `p`, `set_padded p` followed by `padded`
returns `p`: the setter stores `p as c_int` (1 or 0) in the native flag and
the getter reports the flag as nonzero. -/
theorem c5_box_padded_roundtrip (b : BoxNative) (p : Bool) :
    padded (set_padded b p) = p := by
  cases p <;> rfl

/-- C6: the enum-to-integer translations are exactly the evident bijections:
`LayoutStrategy` maps to stretchy 0/1, `GridExpand` to the four
`(hexpand, vexpand)` pairs, `GridAlignment` to the four `uiAlign` values, and
`GridInsertionStrategy` to the four `uiAt` values; the enum-to-enum maps are
bijective and the expand map is injective. -/
theorem c6_enum_translations :
    (GridAlignment.into_ui_align GridAlignment.Fill = uiAlign.uiAlignFill
      ∧ GridAlignment.into_ui_align GridAlignment.Start = uiAlign.uiAlignStart
      ∧ GridAlignment.into_ui_align GridAlignment.Center = uiAlign.uiAlignCenter
      ∧ GridAlignment.into_ui_align GridAlignment.End = uiAlign.uiAlignEnd)
  ∧ (GridInsertionStrategy.into_ui_at GridInsertionStrategy.Leading = uiAt.uiAtLeading
      ∧ GridInsertionStrategy.into_ui_at GridInsertionStrategy.Top = uiAt.uiAtTop
      ∧ GridInsertionStrategy.into_ui_at GridInsertionStrategy.Trailing = uiAt.uiAtTrailing
      ∧ GridInsertionStrategy.into_ui_at GridInsertionStrategy.Bottom = uiAt.uiAtBottom)
  ∧ (gridExpandPair GridExpand.Neither = (0, 0)
      ∧ gridExpandPair GridExpand.Horizontal = (1, 0)
      ∧ gridExpandPair GridExpand.Vertical = (0, 1)
      ∧ gridExpandPair GridExpand.Both = (1, 1))
  ∧ (boolToCInt (stretchyBool LayoutStrategy.Compact) = 0
      ∧ boolToCInt (stretchyBool LayoutStrategy.Stretchy) = 1)
  ∧ Function.Bijective GridAlignment.into_ui_align
  ∧ Function.Bijective GridInsertionStrategy.into_ui_at
  ∧ Function.Injective gridExpandPair := by
  refine ⟨⟨rfl, rfl, rfl, rfl⟩, ⟨rfl, rfl, rfl, rfl⟩, ⟨rfl, rfl, rfl, rfl⟩,
    ⟨rfl, rfl⟩, ⟨?_, ?_⟩, ⟨?_, ?_⟩, ?_⟩
  · intro a b hab
    cases a <;> cases b <;> first | rfl | exact absurd hab (by decide)
  · intro y
    cases y with
    | uiAlignFill => exact ⟨GridAlignment.Fill, rfl⟩
    | uiAlignStart => exact ⟨GridAlignment.Start, rfl⟩
    | uiAlignCenter => exact ⟨GridAlignment.Center, rfl⟩
    | uiAlignEnd => exact ⟨GridAlignment.End, rfl⟩
  · intro a b hab
    cases a <;> cases b <;> first | rfl | exact absurd hab (by decide)
  · intro y
    cases y with
    | uiAtLeading => exact ⟨GridInsertionStrategy.Leading, rfl⟩
    | uiAtTop => exact ⟨GridInsertionStrategy.Top, rfl⟩
    | uiAtTrailing => exact ⟨GridInsertionStrategy.Trailing, rfl⟩
    | uiAtBottom => exact ⟨GridInsertionStrategy.Bottom, rfl⟩
  · intro a b hab
    cases a <;> cases b <;> first | rfl | exact absurd hab (by decide)

/-- C7: every wrapper operation is a stateless, deterministic shim: two runs
of any operation with equal arguments against equal native states yield the
same result — the same return value, the same successor native state and the
same sequence of native calls; `runOp` has no wrapper-side state at all. -/
theorem c7_wrapper_deterministic {σ : Type} (natE : NativeCall → σ → NativeAns × σ)
    (op1 op2 : WrapperOp) (s1 s2 : σ) (hop : op1 = op2) (hs : s1 = s2) :
    runOp natE op1 s1 = runOp natE op2 s2 := by
  subst hop
  subst hs
  rfl

/-- C7 witness: two identical runs of `LayoutGrid::new` against a trivial
native engine coincide. -/
theorem c7_wrapper_deterministic_witness :
    runOp (fun _ s => (⟨0, []⟩, s)) WrapperOp.gridNew (0 : Nat)
      = runOp (fun _ s => (⟨0, []⟩, s)) WrapperOp.gridNew 0 :=
  c7_wrapper_deterministic (fun _ s => (⟨0, []⟩, s))
    WrapperOp.gridNew WrapperOp.gridNew 0 0 rfl rfl

/-- C8: for every sequence of wrapper operations, the produced native call
trace is free of use-after-destroy: no call passes a handle that an earlier
`controlDestroy` in the trace destroyed (indeed no layout.rs operation ever
emits a destroy call). -/
theorem c8_no_use_after_destroy {σ : Type} (natE : NativeCall → σ → NativeAns × σ)
    (ops : List WrapperOp) (s : σ) :
    useAfterDestroyFree (runOps natE ops s).2 := by
  intro i j hn c hij hi hj
  have hmem : NativeCall.controlDestroy hn ∈ (runOps natE ops s).2 := List.get?_mem hi
  have hfalse := runOps_no_destroy natE ops s _ hmem
  simp [NativeCall.isDestroy] at hfalse

/-- C9: when `index < n`, `TabGroup::delete index` returns `Ok(n)` where `n`
is the page count taken before the deletion — one more than the number of
pages remaining afterwards. -/
theorem c9_tab_delete_returns_precount (t : TabGroup) (index : Nat)
    (h : index < t.pages.length) :
    (TabGroup.delete t index).2.2 = Except.ok t.pages.length
  ∧ t.pages.length = (TabGroup.delete t index).1.pages.length + 1 := by
  constructor
  · simp [TabGroup.delete, h]
  · simp only [TabGroup.delete, if_pos h]
    exact (List.length_eraseIdx_add_one h).symm

/-- C9 witness: deleting index 0 of a one-page tab group returns `Ok 1`, and
0 pages remain. -/
theorem c9_tab_delete_returns_precount_witness :
    (TabGroup.delete ⟨[⟨[], 0⟩]⟩ 0).2.2 = Except.ok 1
  ∧ (1 : Nat) = (TabGroup.delete ⟨[⟨[], 0⟩]⟩ 0).1.pages.length + 1 :=
  c9_tab_delete_returns_precount ⟨[⟨[], 0⟩]⟩ 0 (by decide)

/-- C10: whenever `Group::new` returns a group (for any title and any initial
native margined flag), that group's margined flag reads back true, because
`Group::new` calls `set_margined(true)` before returning. -/
theorem c10_group_new_margined (initMargined : Int) (title : List Nat)
    (g : GroupNative) (h : Group.new initMargined title = some g) :
    Group.margined g = true := by
  cases hc : cstring_new title with
  | none => simp [Group.new, hc] at h
  | some tt =>
      simp [Group.new, hc] at h
      subst h
      rfl

/-- C10 witness: a group freshly created with a concrete title is margined. -/
theorem c10_group_new_margined_witness : Group.margined ⟨[85], 1⟩ = true :=
  c10_group_new_margined 0 [85] ⟨[85], 1⟩ rfl
